import Mathlib

/-!
# Model of the hyprlog logging engine and its FFI boundary

The repository ships a C++ demonstration driver (`src/examples/cpp/main.cpp`)
that exercises a logging engine through a C-ABI surface
(`hyprlog_init`, `hyprlog_init_simple`, `hyprlog_log`, the five per-level
convenience functions, `hyprlog_get_last_error`, `hyprlog_flush`,
`hyprlog_free`).  The engine itself (the Rust implementation behind
`libhyprlog.so`) is not part of the source tree, so its behaviour is
modelled here from the design specification; the demonstration driver is
embedded directly from `main.cpp`.
-/

namespace Hyprlog

/-- Modelled from the spec: severity constant `LEVEL_TRACE = 0` of the
external interface; the Rust engine defining it is absent from the tree. -/
def HYPRLOG_LEVEL_TRACE : Nat := 0

/-- Modelled from the spec: severity constant `LEVEL_DEBUG = 1`. -/
def HYPRLOG_LEVEL_DEBUG : Nat := 1

/-- Modelled from the spec: severity constant `LEVEL_INFO = 2`. -/
def HYPRLOG_LEVEL_INFO : Nat := 2

/-- Modelled from the spec: severity constant `LEVEL_WARN = 3`. -/
def HYPRLOG_LEVEL_WARN : Nat := 3

/-- Modelled from the spec: severity constant `LEVEL_ERROR = 4`. -/
def HYPRLOG_LEVEL_ERROR : Nat := 4

/-- Modelled from the spec: the per-instance logger context, one per
handle.  The Rust `HyprlogContext` is absent from the tree; the fields
follow the spec's data model: a numeric level threshold on the fixed
0..4 scale, a colour flag controlling sink-side decoration only, an owned
sink (modelled by the list of lines written so far together with a
writability flag used to model sink failure), and a single optional
last-error slot. -/
structure Context where
  level_threshold : Nat
  color_enabled : Bool
  sink_writable : Bool
  sink_output : List String
  last_error : Option String

/-- Modelled from the spec: the textual name of each severity level used
by the `[LEVEL][TAG] message` record format.  Invalid levels are rejected
before formatting, so the catch-all branch is only ever reached at 4. -/
def levelName : Nat → String
  | 0 => "TRACE"
  | 1 => "DEBUG"
  | 2 => "INFO"
  | 3 => "WARN"
  | _ => "ERROR"

/-- Modelled from the spec: format a record as `[LEVEL][TAG] message`. -/
def formatRecord (level : Nat) (tag msg : String) : String :=
  "[" ++ levelName level ++ "][" ++ tag ++ "] " ++ msg

/-- Modelled from the spec: sink-side colour decoration, applied only when
the context's colour flag is set; the concrete escape rendering is a
sink-level detail, modelled as a fixed ANSI wrapping. -/
def decorate (color : Bool) (line : String) : String :=
  if color then "\x1b[36m" ++ line ++ "\x1b[0m" else line

/-- Modelled from the spec: `hyprlog_log(handle, level, tag, message)`.
An absent handle is a no-op with no output and no error recorded; an
out-of-range level is rejected at validation and never reaches
formatting; a level below the context's threshold is discarded silently;
otherwise the record is formatted, decorated when colour is enabled, and
written synchronously to the sink.  A sink write failure is captured in
the last-error slot and the call returns normally.  The second component
is the list of lines emitted by this call. -/
def hyprlog_log (h : Option Context) (level : Nat) (tag msg : String) :
    Option Context × List String :=
  match h with
  | none => (none, [])
  | some c =>
    if 4 < level then (some c, [])
    else if level < c.level_threshold then (some c, [])
    else if c.sink_writable then
      let line := decorate c.color_enabled (formatRecord level tag msg)
      (some { c with sink_output := c.sink_output ++ [line] }, [line])
    else
      (some { c with last_error := some "sink write failure" }, [])

/-- Modelled from the spec: `hyprlog_trace`, the convenience entry point
fixing the level at `LEVEL_TRACE`. -/
def hyprlog_trace (h : Option Context) (tag msg : String) :
    Option Context × List String :=
  hyprlog_log h HYPRLOG_LEVEL_TRACE tag msg

/-- Modelled from the spec: `hyprlog_debug`, fixing the level at
`LEVEL_DEBUG`. -/
def hyprlog_debug (h : Option Context) (tag msg : String) :
    Option Context × List String :=
  hyprlog_log h HYPRLOG_LEVEL_DEBUG tag msg

/-- Modelled from the spec: `hyprlog_info`, fixing the level at
`LEVEL_INFO`. -/
def hyprlog_info (h : Option Context) (tag msg : String) :
    Option Context × List String :=
  hyprlog_log h HYPRLOG_LEVEL_INFO tag msg

/-- Modelled from the spec: `hyprlog_warn`, fixing the level at
`LEVEL_WARN`. -/
def hyprlog_warn (h : Option Context) (tag msg : String) :
    Option Context × List String :=
  hyprlog_log h HYPRLOG_LEVEL_WARN tag msg

/-- Modelled from the spec: `hyprlog_error`, fixing the level at
`LEVEL_ERROR`. -/
def hyprlog_error (h : Option Context) (tag msg : String) :
    Option Context × List String :=
  hyprlog_log h HYPRLOG_LEVEL_ERROR tag msg

/-- Modelled from the spec: `hyprlog_init_simple(level, color)` bypasses
the configuration resolver, validates the level into range (clamping),
and returns an owned context with an empty error slot; it returns an
absent handle only on allocation failure, modelled by the `allocOk`
parameter. -/
def hyprlog_init_simple (level color : Nat) (allocOk : Bool) : Option Context :=
  if allocOk then
    some { level_threshold := min level 4
           color_enabled := color != 0
           sink_writable := true
           sink_output := []
           last_error := none }
  else none

/-- Modelled from the spec: `hyprlog_get_last_error(handle, buffer, cap)`.
Absent handle: returns the failure sentinel `-1` and leaves the buffer
untouched (`none`).  No recorded error: returns `0`, buffer untouched.
Error present: copies at most `cap - 1` characters plus a terminator into
the buffer (the buffer's new contents are the second component) and
returns the number of characters written. -/
def hyprlog_get_last_error (h : Option Context) (cap : Nat) :
    Int × Option String :=
  match h with
  | none => (-1, none)
  | some c =>
    match c.last_error with
    | none => (0, none)
    | some s =>
      let n := min s.length (cap - 1)
      ((n : Int), some (s.take n))

/-- Modelled from the spec: `hyprlog_flush(handle)`.  Absent handle:
nonzero failure code, no crash.  Valid handle: forces buffered sink
output to be committed; returns `0` on success; on sink failure returns
nonzero and overwrites the last-error slot. -/
def hyprlog_flush (h : Option Context) : Int × Option Context :=
  match h with
  | none => (1, none)
  | some c =>
    if c.sink_writable then (0, some c)
    else (1, some { c with last_error := some "flush failure" })

/-- Modelled from the spec: `hyprlog_free(handle)` accepts an absent
handle as a safe no-op; otherwise it releases the sink and deallocates
the context.  In either case no live context remains behind the handle. -/
def hyprlog_free (_h : Option Context) : Option Context := none

/-- Modelled from the spec: boundary-layer validation of foreign string
encodings.  The engine's decoder is absent from the tree; a byte string
decodes iff every byte is a valid code unit (modelled as 7-bit ASCII),
and invalid encoding is reported as `none`. -/
def decodeAscii (bs : List Nat) : Option String :=
  if bs.all (fun b => decide (b < 128)) then
    some (String.mk (bs.map Char.ofNat))
  else none

/-- Modelled from the spec: the boundary layer of `hyprlog_log` as seen
from foreign callers, receiving raw byte strings.  Invalid encoding is
captured into the per-context error slot as an error, never a crash; on
an absent handle nothing happens. -/
def hyprlog_log_bytes (h : Option Context) (level : Nat) (tb mb : List Nat) :
    Option Context × List String :=
  match h with
  | none => (none, [])
  | some c =>
    match decodeAscii tb, decodeAscii mb with
    | some tag, some msg => hyprlog_log (some c) level tag msg
    | _, _ => (some { c with last_error := some "invalid encoding" }, [])

/-- A character-list membership test for substrings: `hasPrefixL p s` is
true when `p` is an initial segment of `s`. -/
def hasPrefixL : List Char → List Char → Bool
  | [], _ => true
  | _ :: _, [] => false
  | p :: ps, c :: cs => p == c && hasPrefixL ps cs

/-- `containsSub p s` is true when `p` occurs contiguously inside `s`. -/
def containsSub (p : List Char) : List Char → Bool
  | [] => p.isEmpty
  | c :: cs => hasPrefixL p (c :: cs) || containsSub p cs

/-- Events observable in the demonstration driver, from
`src/examples/cpp/main.cpp`: a creation attempt with its outcome, a
`hyprlog_*` call on the created handle, freeing the created handle, and
calls/frees made on a literal null handle. -/
inductive Ev
  | initCtx (ok : Bool)
  | callCtx
  | freeCtx
  | callNull
  | freeNull
deriving DecidableEq, BEq, Repr

/-- Trace of `demonstrate_basic_logging` (main.cpp lines 31-68): create
via `hyprlog_init`; on null return immediately; otherwise five per-level
calls then `hyprlog_free`. -/
def demonstrate_basic_logging (ok : Bool) : List Ev :=
  if ok then
    [Ev.initCtx true, Ev.callCtx, Ev.callCtx, Ev.callCtx, Ev.callCtx,
     Ev.callCtx, Ev.freeCtx]
  else [Ev.initCtx false]

/-- Trace of `demonstrate_simple_init` (main.cpp lines 70-87): create via
`hyprlog_init_simple(DEBUG, 1)`; on null return; otherwise info, debug,
trace calls then `hyprlog_free`. -/
def demonstrate_simple_init (ok : Bool) : List Ev :=
  if ok then
    [Ev.initCtx true, Ev.callCtx, Ev.callCtx, Ev.callCtx, Ev.freeCtx]
  else [Ev.initCtx false]

/-- Trace of `demonstrate_generic_log` (main.cpp lines 89-103): create via
`hyprlog_init_simple(TRACE, 1)`; on null return; otherwise five
`hyprlog_log` calls in a loop over the levels, then `hyprlog_free`. -/
def demonstrate_generic_log (ok : Bool) : List Ev :=
  if ok then
    Ev.initCtx true :: (List.replicate 5 Ev.callCtx ++ [Ev.freeCtx])
  else [Ev.initCtx false]

/-- Trace of `demonstrate_error_handling` (main.cpp lines 105-128): create
via `hyprlog_init_simple(INFO, 0)`; on null return; otherwise
`hyprlog_get_last_error`, `hyprlog_flush`, then `hyprlog_free`. -/
def demonstrate_error_handling (ok : Bool) : List Ev :=
  if ok then [Ev.initCtx true, Ev.callCtx, Ev.callCtx, Ev.freeCtx]
  else [Ev.initCtx false]

/-- Trace of `demonstrate_null_safety` (main.cpp lines 130-142): only a
literal null handle is used, for `hyprlog_log`, `hyprlog_info` and
`hyprlog_free`; no context is created. -/
def demonstrate_null_safety : List Ev :=
  [Ev.callNull, Ev.callNull, Ev.freeNull]

/-- Whether an event acts on the created (non-null) handle. -/
def ctxEv : Ev → Bool
  | Ev.callCtx => true
  | Ev.freeCtx => true
  | _ => false

/-- No event acts on the created handle after it has been freed. -/
def noUseAfterFree : List Ev → Bool
  | [] => true
  | Ev.freeCtx :: rest => !(rest.any ctxEv)
  | _ :: rest => noUseAfterFree rest

/-- A concrete context carrying a recorded error, used to instantiate the
error-retrieval theorems. -/
def errCtx : Context :=
  { level_threshold := 2
    color_enabled := false
    sink_writable := true
    sink_output := []
    last_error := some "boom" }

/-- A concrete healthy context. -/
def okCtx : Context :=
  { level_threshold := 1
    color_enabled := true
    sink_writable := true
    sink_output := []
    last_error := none }

/-- A concrete context whose sink has been made unwritable. -/
def badCtx : Context :=
  { level_threshold := 1
    color_enabled := false
    sink_writable := false
    sink_output := []
    last_error := none }

/-- C1: a record is emitted to the sink iff its level is at least the
context's threshold, under the fixed numeric total order Trace=0 <
Debug=1 < Info=2 < Warn=3 < Error=4; in particular, with threshold DEBUG
a trace call produces no output and a debug call produces exactly one
line containing `[DEBUG][T]`. -/
theorem C1_emitted_iff_level_ge_threshold (ctx : Context) (level : Nat)
    (tag msg : String) (hl : level ≤ 4) (hs : ctx.sink_writable = true) :
    ((hyprlog_log (some ctx) level tag msg).2 ≠ [] ↔
      ctx.level_threshold ≤ level) ∧
    (HYPRLOG_LEVEL_TRACE < HYPRLOG_LEVEL_DEBUG ∧
     HYPRLOG_LEVEL_DEBUG < HYPRLOG_LEVEL_INFO ∧
     HYPRLOG_LEVEL_INFO < HYPRLOG_LEVEL_WARN ∧
     HYPRLOG_LEVEL_WARN < HYPRLOG_LEVEL_ERROR) ∧
    (hyprlog_trace (hyprlog_init_simple HYPRLOG_LEVEL_DEBUG 1 true) "T" "x").2
      = [] ∧
    ∃ line,
      (hyprlog_debug (hyprlog_init_simple HYPRLOG_LEVEL_DEBUG 1 true) "T" "x").2
        = [line] ∧
      containsSub ("[DEBUG][T]".toList) line.toList = true := by
  refine ⟨?_, by decide, rfl,
    decorate true (formatRecord 1 "T" "x"), rfl, by decide⟩
  have h4 : ¬ 4 < level := by omega
  by_cases hlt : level < ctx.level_threshold
  · simp [hyprlog_log, h4, hlt]
  · simp [hyprlog_log, h4, hlt, hs]
    omega

/-- C1 witness: with threshold `Info = 2` and a healthy sink, a level-2
record is emitted. -/
theorem C1_witness :
    (hyprlog_log (some errCtx) 2 "T" "x").2 ≠ [] ↔
      errCtx.level_threshold ≤ 2 :=
  (C1_emitted_iff_level_ge_threshold errCtx 2 "T" "x" (by decide) rfl).1

/-- C2: every entry point called with an absent handle returns its
documented sentinel or is a no-op: log and the five convenience
functions produce no output, change no state and record no error;
`get_last_error` returns the failure sentinel `-1` with the buffer
untouched; `flush` returns a nonzero failure code; `free` does nothing;
all are total functions, so no call aborts. -/
theorem C2_null_handle_noop (level cap : Nat) (tag msg : String) :
    hyprlog_log none level tag msg = (none, []) ∧
    hyprlog_trace none tag msg = (none, []) ∧
    hyprlog_debug none tag msg = (none, []) ∧
    hyprlog_info none tag msg = (none, []) ∧
    hyprlog_warn none tag msg = (none, []) ∧
    hyprlog_error none tag msg = (none, []) ∧
    hyprlog_get_last_error none cap = (-1, none) ∧
    (hyprlog_flush none).1 ≠ 0 ∧
    hyprlog_free none = none :=
  ⟨rfl, rfl, rfl, rfl, rfl, rfl, rfl, by decide, rfl⟩

/-- C3: for every level in `[0,4]` and colour in `{0,1}`,
`hyprlog_init_simple` returns a valid handle whose error slot is empty
whenever allocation succeeds, and returns an absent handle only on
allocation failure. -/
theorem C3_init_simple_valid (level color : Nat) (hl : level ≤ 4)
    (hc : color ≤ 1) :
    (∃ c, hyprlog_init_simple level color true = some c ∧
      c.last_error = none) ∧
    hyprlog_init_simple level color false = none ∧
    (∀ a : Bool, hyprlog_init_simple level color a = none → a = false) := by
  refine ⟨⟨_, rfl, rfl⟩, rfl, ?_⟩
  intro a h
  cases a with
  | false => rfl
  | true => simp [hyprlog_init_simple] at h

/-- C3 witness: at level 1, colour 1, creation with failing allocation
returns the absent handle. -/
theorem C3_witness : hyprlog_init_simple 1 1 false = none :=
  (C3_init_simple_valid 1 1 (by decide) (by decide)).2.1

/-- C4: `get_last_error` returns `-1` with the buffer untouched on an
absent handle; returns `0` with the buffer untouched when no error is
recorded (in particular on any freshly created context); and when an
error is recorded it copies at most `cap - 1` characters into the buffer,
truncating safely, and returns the number of characters written. -/
theorem C4_get_last_error_spec (ctx : Context) (cap : Nat) (s : String) :
    hyprlog_get_last_error none cap = (-1, none) ∧
    (ctx.last_error = none →
      hyprlog_get_last_error (some ctx) cap = (0, none)) ∧
    (∀ level color c, hyprlog_init_simple level color true = some c →
      hyprlog_get_last_error (some c) cap = (0, none)) ∧
    (ctx.last_error = some s →
      hyprlog_get_last_error (some ctx) cap =
        (((min s.length (cap - 1) : Nat) : Int),
         some (s.take (min s.length (cap - 1)))) ∧
      min s.length (cap - 1) ≤ cap - 1) := by
  refine ⟨rfl, ?_, ?_, ?_⟩
  · intro h
    simp [hyprlog_get_last_error, h]
  · intro level color c hc
    simp only [hyprlog_init_simple, if_true, Option.some.injEq] at hc
    subst hc
    rfl
  · intro h
    exact ⟨by simp [hyprlog_get_last_error, h], Nat.min_le_right _ _⟩

/-- C4 witness: a context carrying the error string `boom`, read with a
256-byte buffer, yields length 4 and the string itself. -/
theorem C4_witness :
    hyprlog_get_last_error (some errCtx) 256 =
      (((min (String.length "boom") (256 - 1) : Nat) : Int),
       some (String.take "boom" (min (String.length "boom") (256 - 1)))) :=
  ((C4_get_last_error_spec errCtx 256 "boom").2.2.2 rfl).1

/-- C5: `flush` returns `0` on every healthy context; on a context whose
sink cannot be flushed it returns nonzero and overwrites the last-error
slot so that a subsequent `get_last_error` reports a non-empty
diagnostic; on an absent handle it returns a nonzero failure code. -/
theorem C5_flush_spec (ctx bad : Context) (cap : Nat) (hcap : 2 ≤ cap)
    (hok : ctx.sink_writable = true) (hbad : bad.sink_writable = false) :
    hyprlog_flush (some ctx) = (0, some ctx) ∧
    (hyprlog_flush none).1 ≠ 0 ∧
    (hyprlog_flush (some bad)).1 ≠ 0 ∧
    0 < (hyprlog_get_last_error (hyprlog_flush (some bad)).2 cap).1 := by
  refine ⟨by simp [hyprlog_flush, hok], by decide, ?_, ?_⟩
  · simp [hyprlog_flush, hbad]
  · simp [hyprlog_flush, hbad, hyprlog_get_last_error]
    have h2 : String.length "flush failure" = 13 := rfl
    refine ⟨by omega, by omega⟩

/-- C5 witness: the healthy context flushes with `0`; the unwritable one
returns nonzero and leaves a retrievable diagnostic. -/
theorem C5_witness :
    hyprlog_flush (some okCtx) = (0, some okCtx) ∧
    (hyprlog_flush none).1 ≠ 0 ∧
    (hyprlog_flush (some badCtx)).1 ≠ 0 ∧
    0 < (hyprlog_get_last_error (hyprlog_flush (some badCtx)).2 256).1 :=
  C5_flush_spec okCtx badCtx 256 (by decide) rfl rfl

/-- C6: each per-level convenience entry point is observably equivalent
to `hyprlog_log` with that level fixed — same filtering, output,
error-slot updates and null-handle behaviour, on every handle and every
tag/message. -/
theorem C6_convenience_equiv_log (h : Option Context) (tag msg : String) :
    hyprlog_trace h tag msg = hyprlog_log h HYPRLOG_LEVEL_TRACE tag msg ∧
    hyprlog_debug h tag msg = hyprlog_log h HYPRLOG_LEVEL_DEBUG tag msg ∧
    hyprlog_info h tag msg = hyprlog_log h HYPRLOG_LEVEL_INFO tag msg ∧
    hyprlog_warn h tag msg = hyprlog_log h HYPRLOG_LEVEL_WARN tag msg ∧
    hyprlog_error h tag msg = hyprlog_log h HYPRLOG_LEVEL_ERROR tag msg :=
  ⟨rfl, rfl, rfl, rfl, rfl⟩

/-- C7: logging below the context's threshold produces no sink output,
records no error, and returns the context unchanged — a silent filtering
outcome, not an error. -/
theorem C7_filtering_is_silent (ctx : Context) (l1 : Nat) (tag msg : String)
    (h : l1 < ctx.level_threshold) :
    hyprlog_log (some ctx) l1 tag msg = (some ctx, []) := by
  by_cases h4 : 4 < l1
  · simp [hyprlog_log, h4]
  · simp [hyprlog_log, h4, h]

/-- C7 witness: a trace record against a DEBUG-threshold context is
silently discarded with the context unchanged. -/
theorem C7_witness : hyprlog_log (some okCtx) 0 "T" "x" = (some okCtx, []) :=
  C7_filtering_is_silent okCtx 0 "T" "x" (by decide)

/-- C8: no logging call mutates `level_threshold` or `color_enabled` —
only the last-error slot may change — and the colour flag never affects
the filtering decision, only sink-side decoration. -/
theorem C8_logging_preserves_config (ctx : Context) (level : Nat)
    (tag msg : String) (b : Bool) :
    (hyprlog_log (some ctx) level tag msg).1.map Context.level_threshold =
      some ctx.level_threshold ∧
    (hyprlog_log (some ctx) level tag msg).1.map Context.color_enabled =
      some ctx.color_enabled ∧
    ((hyprlog_log (some { ctx with color_enabled := b }) level tag msg).2 = []
      ↔ (hyprlog_log (some ctx) level tag msg).2 = []) := by
  by_cases h4 : 4 < level
  · simp [hyprlog_log, h4]
  · by_cases hlt : level < ctx.level_threshold
    · simp [hyprlog_log, h4, hlt]
    · by_cases hw : ctx.sink_writable = true
      · simp [hyprlog_log, h4, hlt, hw]
      · simp [hyprlog_log, h4, hlt, hw]

/-- C9: under every input, each entry point returns normally without an
exception crossing the boundary: an out-of-range level is rejected at
validation and never reaches formatting, and an invalidly encoded input
string is captured into the per-context error slot rather than crashing
the call. -/
theorem C9_boundary_no_crash (h : Option Context) (ctx : Context)
    (level lvl2 : Nat) (tag msg : String) (tb mb : List Nat)
    (hinv : 4 < level)
    (hbad : decodeAscii tb = none ∨ decodeAscii mb = none) :
    hyprlog_log h level tag msg = (h, []) ∧
    (hyprlog_log_bytes (some ctx) lvl2 tb mb).2 = [] ∧
    ∃ c', (hyprlog_log_bytes (some ctx) lvl2 tb mb).1 = some c' ∧
      c'.last_error = some "invalid encoding" := by
  refine ⟨?_, ?_⟩
  · cases h with
    | none => rfl
    | some c => simp [hyprlog_log, hinv]
  · have hres : hyprlog_log_bytes (some ctx) lvl2 tb mb =
        (some { ctx with last_error := some "invalid encoding" }, []) := by
      rcases hbad with hb | hb
      · simp [hyprlog_log_bytes, hb]
      · cases htb : decodeAscii tb with
        | none => simp [hyprlog_log_bytes, htb]
        | some t => simp [hyprlog_log_bytes, htb, hb]
    rw [hres]
    exact ⟨rfl, _, rfl, rfl⟩

/-- C9 witness: level 5 is rejected before formatting on a live
context. -/
theorem C9_witness : hyprlog_log (some okCtx) 5 "T" "x" = (some okCtx, []) :=
  (C9_boundary_no_crash (some okCtx) errCtx 5 2 "T" "x" [200] []
    (by decide) (Or.inl (by decide))).1

/-- C10: in the demonstration driver every non-null context is freed
exactly once before its function returns, no `hyprlog_*` call touches
the handle after it is freed, when creation returns null the function
makes no call on that handle, and the null-safety test uses only a
literal null handle. -/
theorem C10_driver_lifecycle :
    ((demonstrate_basic_logging true).count Ev.freeCtx = 1 ∧
     noUseAfterFree (demonstrate_basic_logging true) = true ∧
     (demonstrate_basic_logging false).count Ev.freeCtx = 0 ∧
     (demonstrate_basic_logging false).count Ev.callCtx = 0) ∧
    ((demonstrate_simple_init true).count Ev.freeCtx = 1 ∧
     noUseAfterFree (demonstrate_simple_init true) = true ∧
     (demonstrate_simple_init false).count Ev.freeCtx = 0 ∧
     (demonstrate_simple_init false).count Ev.callCtx = 0) ∧
    ((demonstrate_generic_log true).count Ev.freeCtx = 1 ∧
     noUseAfterFree (demonstrate_generic_log true) = true ∧
     (demonstrate_generic_log false).count Ev.freeCtx = 0 ∧
     (demonstrate_generic_log false).count Ev.callCtx = 0) ∧
    ((demonstrate_error_handling true).count Ev.freeCtx = 1 ∧
     noUseAfterFree (demonstrate_error_handling true) = true ∧
     (demonstrate_error_handling false).count Ev.freeCtx = 0 ∧
     (demonstrate_error_handling false).count Ev.callCtx = 0) ∧
    (demonstrate_null_safety.count Ev.freeCtx = 0 ∧
     demonstrate_null_safety.count Ev.callCtx = 0 ∧
     demonstrate_null_safety = [Ev.callNull, Ev.callNull, Ev.freeNull]) := by
  decide

end Hyprlog
